import Mathlib

/-!
Shallow embedding of the Bitcoin chatbot backend (src/app.py).

The two pieces of repeatable logic are embedded here:

* `get_bitcoin_data` — the 300-second in-memory quote cache with stale
  fallback (src/app.py, lines 82-155).  The process-wide globals
  `cached_data` / `last_fetch_time` become an explicit `CacheState` that is
  threaded in and out.  The single `requests.get` call of a cache miss is
  represented by a `FetchResult` oracle argument describing what the network
  did on this call; the `fetch_count` output field counts how many times that
  oracle was consumed (0 on a cache hit, 1 on a miss), which is the
  observable the spec's call-count properties talk about.
* `ask_bitcoin_api` — the `/ask` request handler (src/app.py, lines 257-345).
  The Gemini collaborator is an oracle argument (`Except String
  GeminiResponse`: a raised exception or a response object); the result
  record additionally exposes the prompt string sent to the collaborator and
  how many times each collaborator was contacted, since several properties
  are about exactly those observables.

Python `time.time()` values are modelled as natural-number seconds; JSON
numbers as exact rationals (`JsonNum`, a numerator/denominator pair).
Python's `{:,.2f}` float formatting is embedded as exact decimal rounding of
the rational to cents (the claims under check do not depend on binary-float
rounding ties).
-/

namespace BitcoinChatbot

/-- A JSON numeric value, as the exact rational `num / den`.  JSON numbers
are decimal literals, so every value the provider can send is representable
exactly. -/
structure JsonNum where
  num : Int
  den : Nat := 1
deriving DecidableEq

/-- The value rounded to cents (used by the `{:,.2f}` embedding):
`⌊x * 100 + 1/2⌋`. -/
def JsonNum.toCents (x : JsonNum) : Int :=
  Int.fdiv (2 * x.num * 100 + x.den) (2 * x.den)

/-- The fields of `data['bitcoin']` in the CoinGecko response.  `usdPresent`
records whether the key `'usd'` is present at all (the code tests membership
with `'usd' in data['bitcoin']`), while `usd` is the value `btc_data.get('usd')`
returns: `none` both when the key is missing and when its value is JSON null. -/
structure BtcFields where
  usdPresent : Bool
  usd : Option JsonNum
  usd_market_cap : Option JsonNum
  usd_24h_vol : Option JsonNum
  last_updated_at : Option Nat
deriving DecidableEq

/-- A parsed CoinGecko JSON body; `bitcoin = none` means the `'bitcoin'` key
is absent. -/
structure CGResponse where
  bitcoin : Option BtcFields
deriving DecidableEq

/-- Outcome of the single `requests.get` attempt of a cache miss. -/
inductive FetchResult where
  | success (data : CGResponse)
  | requestError (e : String)
  | unexpectedError (e : String)
deriving DecidableEq

/-- The dict stored in the global `cached_data`. -/
structure CachedData where
  formatted_string : String
  raw_data : CGResponse
deriving DecidableEq

/-- The process-wide cache globals `cached_data` and `last_fetch_time`. -/
structure CacheState where
  cached_data : Option CachedData
  last_fetch_time : Nat
deriving DecidableEq

def CACHE_DURATION_SECONDS : Nat := 300

/-- Two-digit zero padding, as `%m`, `%d`, `%H`, `%M`, `%S` in `strftime`. -/
def pad2 (n : Nat) : String :=
  if n < 10 then "0" ++ toString n else toString n

/-- Civil date from a day count since the Unix epoch (embedding of
`time.gmtime` restricted to the date part, for timestamps at or after the
epoch). -/
def civilFromDays (days : Nat) : Nat × Nat × Nat :=
  let z := days + 719468
  let era := z / 146097
  let doe := z % 146097
  let yoe := (doe - doe / 1460 + doe / 36524 - doe / 146096) / 365
  let doy := doe - (365 * yoe + yoe / 4 - yoe / 100)
  let mp := (5 * doy + 2) / 153
  let d := doy - (153 * mp + 2) / 5 + 1
  let m := if mp < 10 then mp + 3 else mp - 9
  let y := yoe + era * 400
  (if m ≤ 2 then y + 1 else y, m, d)

/-- Embedding of `time.strftime('%Y-%m-%d %H:%M:%S UTC', time.gmtime(t))`. -/
def strftime_utc (t : Nat) : String :=
  let days := t / 86400
  let secs := t % 86400
  let ymd := civilFromDays days
  toString ymd.1 ++ "-" ++ pad2 ymd.2.1 ++ "-" ++ pad2 ymd.2.2 ++ " " ++
    pad2 (secs / 3600) ++ ":" ++ pad2 ((secs % 3600) / 60) ++ ":" ++
    pad2 (secs % 60) ++ " UTC"

/-- Insert a thousands separator every three digits, counting from the right
(input and output are reversed digit lists). -/
def group3 : List Char → List Char
  | a :: b :: c :: d :: rest => a :: b :: c :: ',' :: group3 (d :: rest)
  | l => l

/-- Embedding of Python `f"{x:,.2f}"`: round to cents, comma-grouped integer
part, exactly two fractional digits. -/
def format_comma_2f (q : JsonNum) : String :=
  let c : Int := q.toCents
  let n : Nat := c.natAbs
  let ip := n / 100
  let fp := n % 100
  (if c < 0 then "-" else "") ++
    String.mk (group3 (toString ip).data.reverse).reverse ++ "." ++ pad2 fp

/-- The `last_updated_readable` local of `get_bitcoin_data`: `"N/A"` unless
the provider supplied a truthy (non-zero, non-null) `last_updated_at`. -/
def last_updated_readable (lua : Option Nat) : String :=
  match lua with
  | some ts => if ts = 0 then "N/A" else strftime_utc ts
  | none => "N/A"

/-- The `formatted_data_string` built on a successful parse
(src/app.py lines 110-123). -/
def render_formatted (b : BtcFields) : String :=
  "--- RECENT BITCOIN DATA ---\n" ++
  (match b.usd with
   | some p => "Current Price (USD): $" ++ format_comma_2f p ++ "\n"
   | none => "Current Price (USD): N/A\n") ++
  (match b.usd_market_cap with
   | some v => "Market Cap (USD): $" ++ format_comma_2f v ++ "\n"
   | none => "Market Cap (USD): N/A\n") ++
  (match b.usd_24h_vol with
   | some v => "24h Volume (USD): $" ++ format_comma_2f v ++ "\n"
   | none => "24h Volume (USD): N/A\n") ++
  ("Last Updated (UTC): " ++ last_updated_readable b.last_updated_at ++ "\n") ++
  "--------------------------\n\n"

/-- The parse check `'bitcoin' in data and 'usd' in data['bitcoin']`. -/
def parse_ok (r : CGResponse) : Bool :=
  match r.bitcoin with
  | some b => b.usdPresent
  | none => false

/-- Result of one `get_bitcoin_data` call: the returned pair
`(text, fetch_error)`, the cache globals after the call, and how many
network fetches were performed during the call. -/
structure GetDataResult where
  text : String
  note : Option String
  st : CacheState
  fetch_count : Nat
deriving DecidableEq

/-- The parse-failure branch (src/app.py lines 133-139). -/
def parse_fail (st : CacheState) : GetDataResult :=
  match st.cached_data with
  | some c =>
    ⟨c.formatted_string, some "Using stale data due to parsing error.", st, 1⟩
  | none =>
    ⟨"Could not fetch real-time data due to an API response format issue.",
      some "Could not parse Bitcoin data from CoinGecko API response.", st, 1⟩

/-- The cache-miss path of `get_bitcoin_data`: one fetch attempt, then the
success / parse-failure / exception branches (src/app.py lines 95-155). -/
def fetch_branch (st : CacheState) (current_time : Nat) (fetch : FetchResult) :
    GetDataResult :=
  match fetch with
  | .success data =>
    match data.bitcoin with
    | some b =>
      if b.usdPresent then
        let fs := render_formatted b
        ⟨fs, none, ⟨some ⟨fs, data⟩, current_time⟩, 1⟩
      else parse_fail st
    | none => parse_fail st
  | .requestError e =>
    match st.cached_data with
    | some c =>
      ⟨c.formatted_string, some "Using stale data due to fetch error.", st, 1⟩
    | none =>
      ⟨"Could not fetch real-time data due to an API error.",
        some ("Request Error: " ++ e), st, 1⟩
  | .unexpectedError e =>
    match st.cached_data with
    | some c =>
      ⟨c.formatted_string, some "Using stale data due to unexpected error.", st, 1⟩
    | none =>
      ⟨"Could not fetch real-time data due to an unexpected error.",
        some ("Unexpected Error: " ++ e), st, 1⟩

/-- Embedding of `get_bitcoin_data` (src/app.py lines 88-155): serve the
cached snapshot while it is younger than `CACHE_DURATION_SECONDS`, otherwise
perform one fetch attempt. -/
def get_bitcoin_data (st : CacheState) (current_time : Nat)
    (fetch : FetchResult) : GetDataResult :=
  match st.cached_data with
  | some c =>
    if current_time - st.last_fetch_time < CACHE_DURATION_SECONDS then
      ⟨c.formatted_string, none, st, 0⟩
    else fetch_branch st current_time fetch
  | none => fetch_branch st current_time fetch

/-- A fetch attempt that the stale-fallback policy treats as failed: a raised
exception, or a response whose shape fails the parse check. -/
def fetch_fails : FetchResult → Bool
  | .success d => !parse_ok d
  | .requestError _ => true
  | .unexpectedError _ => true

/-- The fixed persona preamble `SYSTEM_PROMPT` (src/app.py lines 60-78). -/
def SYSTEM_PROMPT : String :=
  "\nCRITICAL INSTRUCTION: You are a specialized Bitcoin chatbot. Your knowledge base is focused STRICTLY and ONLY on Bitcoin concepts, history, technology, economics, figures, events, and technical details (blockchain, mining, cryptography, wallets, Layer 2 like Lightning Network).\n\n" ++
  "Your role is purely informative and factual. UNDER NO CIRCUMSTANCES provide financial advice, investment recommendations, or price predictions. Do not speculate on future price movements or recommend buying/selling decisions.\n\n" ++
  "You are provided with RECENT Bitcoin data under \"--- RECENT BITCOIN DATA ---\".\n- When responding to questions about CURRENT price, market cap, or 24h volume, ALWAYS use the provided data EXACTLY.\n- Begin answers about current metrics by referencing the data, e.g., \"According to the recent data provided, the current price is...\".\n- If the data block indicates an ERROR or a value is N/A, state \"I could not fetch real-time data for that at this moment\" before giving any general information based on your training. Do NOT use outdated general knowledge for CURRENT figures.\n\n" ++
  "Answer user questions accurately and concisely. Aim for clarity and avoid unnecessary jargon; explain technical terms (like hashrate, UTXO, difficulty) when first used or requested. Use Markdown formatting (bold, lists) for readability when appropriate.\n\n" ++
  "If a question is:\n1. Clearly outside Bitcoin scope (other crypto details, general knowledge): Politely state: \"I am a specialized chatbot focused only on Bitcoin, and I cannot answer questions about [topic].\"\n2. About comparing Bitcoin to another crypto feature: Briefly explain the Bitcoin aspect and mention the comparison point without detailing the other crypto.\n3. Ambiguous or you lack sufficient information: State that you do not have enough information to provide a confident answer on that specific topic, or politely ask for clarification if appropriate.\n\n" ++
  "Maintain a helpful, informative, and neutral tone. Do not express opinions or engage in speculative discussions.\n"

/-- One frontend history message: `{type: "user"|"bot", text: string}`. -/
structure ChatMsg where
  type : String
  text : String
deriving DecidableEq

/-- Embedding of `format_history_for_gemini` (src/app.py lines 159-171):
role/text pairs, persona preamble and fixed acknowledgement first. -/
def format_history_for_gemini (history : List ChatMsg) : List (String × String) :=
  ("user", SYSTEM_PROMPT) ::
  ("model", "Okay, I am ready to answer questions about Bitcoin and use the provided real-time data.") ::
  history.map (fun m => (if m.type = "user" then "user" else "model", m.text))

/-- The `RESOURCE_LINKS` table (src/app.py lines 188-220).  Each regex
pattern `\b(kw1|kw2|...)\b` is represented by its list of alternative
keywords; all alternatives begin and end with word characters, so the
pattern matches exactly when some keyword occurs delimited by word
boundaries. -/
def RESOURCE_LINKS : List (List String × List (String × String)) :=
  [(["what is bitcoin", "intro to bitcoin", "bitcoin explained"],
    [("Bitcoin.org - Getting Started", "https://bitcoin.org/en/getting-started"),
     ("CoinDesk - What is Bitcoin?", "https://www.coindesk.com/learn/what-is-bitcoin")]),
   (["blockchain"],
    [("Investopedia - Blockchain Explained", "https://www.investopedia.com/terms/b/blockchain.asp"),
     ("Bitcoin.org - Blockchain (Developer Guide)", "https://bitcoin.org/en/developer-guide#block-chain")]),
   (["mining", "bitcoin mining"],
    [("Coinbase - What is Bitcoin Mining?", "https://www.coinbase.com/learn/crypto-basics/what-is-mining")]),
   (["satoshi nakamoto", "whitepaper"],
    [("Bitcoin Whitepaper (Original PDF)", "https://bitcoin.org/bitcoin.pdf")]),
   (["halving", "bitcoin halving"],
    [("CoinGecko - Bitcoin Halving Guide", "https://www.coingecko.com/learn/bitcoin-halving-guide")]),
   (["wallet", "wallets", "bitcoin wallet"],
    [("Bitcoin.org - Choose your Wallet", "https://bitcoin.org/en/choose-your-wallet")]),
   (["lightning network", "layer 2"],
    [("Lightning Network Whitepaper (Original PDF)", "https://lightning.network/lightning-network-paper.pdf"),
     ("Coinbase - What is the Lightning Network?", "https://www.coinbase.com/learn/crypto-basics/what-is-the-lightning-network")]),
   (["price", "market cap", "volume", "coin gecko", "coingecko"],
    [("CoinGecko - Bitcoin Price Chart", "https://www.coingecko.com/en/coins/bitcoin")]),
   (["transaction", "transactions", "fees"],
    [("Mempool.space (Bitcoin Explorer)", "https://mempool.space/")])]

/-- A word character for the purposes of the regex `\b` boundary. -/
def is_word_char (c : Char) : Bool := c.isAlphanum || c == '_'

/-- `\b` holds before the match position given the preceding character. -/
def boundary_before : Option Char → Bool
  | none => true
  | some c => !is_word_char c

/-- The keyword matches at the head of the text and a `\b` boundary follows. -/
def match_here : List Char → List Char → Bool
  | t, [] =>
    match t with
    | [] => true
    | c :: _ => !is_word_char c
  | [], _ :: _ => false
  | c :: t, k :: ks => c == k && match_here t ks

/-- Scan every position of the text for a boundary-delimited keyword match. -/
def kw_occurs_from (kw : List Char) : Option Char → List Char → Bool
  | prev, [] => boundary_before prev && match_here [] kw
  | prev, c :: rest =>
    (boundary_before prev && match_here (c :: rest) kw) ||
      kw_occurs_from kw (some c) rest

/-- `re.search(r'\b(...kw...)\b', t)` succeeds for this single keyword. -/
def kw_occurs (kw : String) (t : String) : Bool :=
  kw_occurs_from kw.data none t.data

/-- Embedding of `find_relevant_links` (src/app.py lines 223-237): lowercase
the text, collect the link pairs of every pattern that matches, and
de-duplicate (the Python code collects into a set). -/
def find_relevant_links (text_to_analyze : String)
    (links_dict : List (List String × List (String × String))) :
    List (String × String) :=
  let lower := text_to_analyze.toLower
  (((links_dict.filter (fun p => p.1.any (fun kw => kw_occurs kw lower))).map
      Prod.snd).flatten).eraseDups

/-- Insert into a list sorted by `le`. -/
def insert_le (le : String × String → String × String → Bool)
    (a : String × String) : List (String × String) → List (String × String)
  | [] => [a]
  | b :: l => if le a b then a :: b :: l else b :: insert_le le a l

/-- Sorting of the link list, as `relevant_links.sort(key=lambda x: x[0])`
(all link labels in the table are distinct, so any stable order agrees). -/
def sort_links : List (String × String) → List (String × String)
  | [] => []
  | a :: l => insert_le (fun a b => a.1 ≤ b.1) a (sort_links l)

/-- The markdown `links_section` appended to the bot response
(src/app.py lines 333-337). -/
def links_section (links : List (String × String)) : String :=
  "\n\n**Related Resources:**\n" ++
    String.join (links.map (fun l => "- [" ++ l.1 ++ "](" ++ l.2 ++ ")\n"))

/-- The parsed `/ask` request body; each field is `none` when the key is
missing from the JSON object. -/
structure AskJson where
  question : Option String
  history : Option (List ChatMsg)
deriving DecidableEq

/-- A Gemini reply object: the content parts, `prompt_feedback.block_reason`
when feedback is present, and the `finish_reason` of each candidate. -/
structure GeminiResponse where
  parts : List String
  prompt_feedback : Option String
  candidates : List String
deriving DecidableEq

/-- `response.text`: the concatenated text of the content parts. -/
def GeminiResponse.text (r : GeminiResponse) : String := String.join r.parts

/-- The JSON body of the `/ask` reply: an `answer` payload or an `error`
payload. -/
inductive RespBody where
  | answer (s : String)
  | error (s : String)
deriving DecidableEq

/-- Observable outcome of one `/ask` request: HTTP status, body, the cache
globals after the request, how many times `get_bitcoin_data` was entered,
how many network price fetches that produced, how many times the Gemini
collaborator was contacted, and the prompt string handed to it (when it
was). -/
structure AskResult where
  status : Nat
  body : RespBody
  st : CacheState
  get_data_calls : Nat
  fetch_count : Nat
  llm_calls : Nat
  prompt : Option String
deriving DecidableEq

/-- Embedding of the `/ask` handler `ask_bitcoin_api`
(src/app.py lines 257-345).  `model_ready` is whether the Gemini model was
initialised at startup; `req` is the parsed JSON body (`none` when absent);
`fetch` and `llm` are the oracles for the two outbound calls. -/
def ask_bitcoin_api (model_ready : Bool) (req : Option AskJson)
    (st : CacheState) (current_time : Nat) (fetch : FetchResult)
    (llm : Except String GeminiResponse) : AskResult :=
  if !model_ready then
    ⟨503, .answer "The chatbot backend is not fully initialized. Please try again later or contact the administrator.",
      st, 0, 0, 0, none⟩
  else
    match req with
    | some ⟨some user_question, some chat_history_frontend⟩ =>
      if user_question = "" then
        ⟨200, .answer "Please enter a question.", st, 0, 0, 0, none⟩
      else
        let r := get_bitcoin_data st current_time fetch
        let data_block_for_prompt :=
          "--- RECENT BITCOIN DATA ---\n" ++
          (if r.note.getD "" ≠ "" then
            "Data Fetch Status: ERROR - " ++ r.note.getD "" ++ "\n"
          else
            r.text.replace "--- RECENT BITCOIN DATA ---\n" "") ++
          "--------------------------\n\n"
        let prompt_with_data :=
          data_block_for_prompt ++ "User Question: " ++ user_question ++
            "\n\nAnswer:"
        let _gemini_history := format_history_for_gemini chat_history_frontend
        let bot_response :=
          match llm with
          | .ok response =>
            if response.parts.isEmpty then
              let block_reason := response.prompt_feedback.getD "Unknown"
              let finish_reason := response.candidates.headD "N/A"
              "Response blocked or incomplete. Reason: " ++ block_reason ++
                ". Finish: " ++ finish_reason ++ ". Please try rephrasing."
            else response.text.trim
          | .error e => "An internal error occurred while contacting the AI: " ++ e
        let relevant_links := find_relevant_links bot_response RESOURCE_LINKS
        let final_response :=
          if relevant_links.isEmpty then bot_response
          else bot_response ++ links_section (sort_links relevant_links)
        ⟨200, .answer final_response, r.st, 1, r.fetch_count, 1,
          some prompt_with_data⟩
    | _ =>
      ⟨400, .error "Invalid request. Please provide \x27question\x27 and \x27history\x27 in the JSON body.",
        st, 0, 0, 0, none⟩

/-- The needle list occurs at the head of the haystack list. -/
def starts_list : List Char → List Char → Bool
  | [], _ => true
  | _ :: _, [] => false
  | a :: as, b :: bs => a == b && starts_list as bs

/-- The needle occurs somewhere in the haystack. -/
def occurs_list (n : List Char) : List Char → Bool
  | [] => starts_list n []
  | c :: rest => starts_list n (c :: rest) || occurs_list n (rest)

/-- Substring occurrence test used to state (non-)containment facts about
concrete prompt strings. -/
def substr_occurs (needle hay : String) : Bool :=
  occurs_list needle.data hay.data

/-! ### Helper lemmas -/

/-- Every branch of the cache-miss path performs exactly one fetch. -/
theorem fetch_branch_fetch_count (st : CacheState) (t : Nat) (f : FetchResult) :
    (fetch_branch st t f).fetch_count = 1 := by
  have hp : (parse_fail st).fetch_count = 1 := by
    unfold parse_fail; cases st.cached_data <;> rfl
  cases f with
  | success d =>
    cases hb : d.bitcoin with
    | none => simpa [fetch_branch, hb] using hp
    | some b =>
      cases hu : b.usdPresent <;> simp [fetch_branch, hb, hu, hp]
  | requestError e => unfold fetch_branch; cases st.cached_data <;> rfl
  | unexpectedError e => unfold fetch_branch; cases st.cached_data <;> rfl

/-- A failed fetch attempt leaves the cache globals untouched. -/
theorem fetch_branch_fail_state (st : CacheState) (t : Nat) (f : FetchResult)
    (hfail : fetch_fails f = true) : (fetch_branch st t f).st = st := by
  have hp : (parse_fail st).st = st := by
    unfold parse_fail; cases st.cached_data <;> rfl
  cases f with
  | success d =>
    have hpo : parse_ok d = false := by simpa [fetch_fails] using hfail
    cases hb : d.bitcoin with
    | none => simpa [fetch_branch, hb] using hp
    | some b =>
      have hu : b.usdPresent = false := by simpa [parse_ok, hb] using hpo
      simpa [fetch_branch, hb, hu] using hp
  | requestError e => unfold fetch_branch; cases st.cached_data <;> rfl
  | unexpectedError e => unfold fetch_branch; cases st.cached_data <;> rfl

/-- A fetch attempt that succeeds and parses replaces the whole cache. -/
theorem fetch_branch_success (st : CacheState) (t : Nat) (d : CGResponse)
    (b : BtcFields) (hb : d.bitcoin = some b) (hu : b.usdPresent = true) :
    fetch_branch st t (.success d) =
      ⟨render_formatted b, none,
        ⟨some ⟨render_formatted b, d⟩, t⟩, 1⟩ := by
  simp [fetch_branch, hb, hu]

/-- With a prior snapshot, every failed fetch serves the prior text with a
non-empty note. -/
theorem fetch_branch_stale (st : CacheState) (t : Nat) (f : FetchResult)
    (c : CachedData) (hc : st.cached_data = some c)
    (hfail : fetch_fails f = true) :
    ∃ n, fetch_branch st t f = ⟨c.formatted_string, some n, st, 1⟩ ∧ n ≠ "" := by
  cases f with
  | success d =>
    have hpo : parse_ok d = false := by simpa [fetch_fails] using hfail
    cases hb : d.bitcoin with
    | none =>
      exact ⟨"Using stale data due to parsing error.",
        by simp [fetch_branch, hb, parse_fail, hc], by decide⟩
    | some b =>
      have hu : b.usdPresent = false := by simpa [parse_ok, hb] using hpo
      exact ⟨"Using stale data due to parsing error.",
        by simp [fetch_branch, hb, hu, parse_fail, hc], by decide⟩
  | requestError e =>
    exact ⟨"Using stale data due to fetch error.",
      by simp [fetch_branch, hc], by decide⟩
  | unexpectedError e =>
    exact ⟨"Using stale data due to unexpected error.",
      by simp [fetch_branch, hc], by decide⟩

/-- A string with a non-empty left part is non-empty. -/
theorem append_ne_empty_left (a b : String) (h : a ≠ "") : a ++ b ≠ "" := by
  intro hc
  apply h
  have hd := congrArg String.data hc
  rw [String.data_append] at hd
  have ha : a.data = [] := (List.append_eq_nil.mp hd).1
  exact String.ext ha

/-- On a cache miss (no snapshot, or age at least the TTL) the call is the
fetch path. -/
theorem get_bitcoin_data_miss (st : CacheState) (t : Nat) (f : FetchResult)
    (h : st.cached_data = none ∨
      CACHE_DURATION_SECONDS ≤ t - st.last_fetch_time) :
    get_bitcoin_data st t f = fetch_branch st t f := by
  cases hc : st.cached_data with
  | none => simp [get_bitcoin_data, hc]
  | some c =>
    rcases h with h | h
    · rw [hc] at h; cases h
    · have hn : ¬ t - st.last_fetch_time < CACHE_DURATION_SECONDS := by omega
      simp [get_bitcoin_data, hc, hn]

/-! ### C1 -/

/-- C1: while a cached snapshot exists and is strictly younger than
`CACHE_DURATION_SECONDS`, `get_bitcoin_data` returns exactly the cached
`formatted_string` with note `none` and performs no network fetch. -/
theorem c1_cache_hit_serves_cached (st : CacheState) (current_time : Nat)
    (fetch : FetchResult) (c : CachedData) (hc : st.cached_data = some c)
    (hfresh : current_time - st.last_fetch_time < CACHE_DURATION_SECONDS) :
    (get_bitcoin_data st current_time fetch).text = c.formatted_string ∧
    (get_bitcoin_data st current_time fetch).note = none ∧
    (get_bitcoin_data st current_time fetch).fetch_count = 0 := by
  simp [get_bitcoin_data, hc, hfresh]

/-- Witness for C1: a concrete call 100 seconds after caching. -/
theorem c1_witness :
    (get_bitcoin_data ⟨some ⟨"CACHED", ⟨none⟩⟩, 100⟩ 200 (.requestError "down")).text = "CACHED" ∧
    (get_bitcoin_data ⟨some ⟨"CACHED", ⟨none⟩⟩, 100⟩ 200 (.requestError "down")).note = none ∧
    (get_bitcoin_data ⟨some ⟨"CACHED", ⟨none⟩⟩, 100⟩ 200 (.requestError "down")).fetch_count = 0 :=
  c1_cache_hit_serves_cached ⟨some ⟨"CACHED", ⟨none⟩⟩, 100⟩ 200
    (.requestError "down") ⟨"CACHED", ⟨none⟩⟩ rfl (by decide)

/-! ### C2 -/

/-- C2: when no snapshot exists, or the snapshot's age is at least
`CACHE_DURATION_SECONDS` (age exactly equal counts as expired), exactly one
network fetch attempt is made before returning. -/
theorem c2_miss_exactly_one_fetch (st : CacheState) (current_time : Nat)
    (fetch : FetchResult)
    (h : st.cached_data = none ∨
      CACHE_DURATION_SECONDS ≤ current_time - st.last_fetch_time) :
    (get_bitcoin_data st current_time fetch).fetch_count = 1 := by
  cases hc : st.cached_data with
  | none =>
    simpa [get_bitcoin_data, hc] using
      fetch_branch_fetch_count st current_time fetch
  | some c =>
    rcases h with h | h
    · rw [hc] at h; cases h
    · have hn : ¬ current_time - st.last_fetch_time < CACHE_DURATION_SECONDS := by
        omega
      simpa [get_bitcoin_data, hc, hn] using
        fetch_branch_fetch_count st current_time fetch

/-- Witness for C2: the snapshot's age is exactly 300 seconds — the
boundary case counts as expired and one fetch happens. -/
theorem c2_witness :
    (get_bitcoin_data ⟨some ⟨"CACHED", ⟨none⟩⟩, 100⟩ 400 (.requestError "down")).fetch_count = 1 :=
  c2_miss_exactly_one_fetch ⟨some ⟨"CACHED", ⟨none⟩⟩, 100⟩ 400
    (.requestError "down") (Or.inr (by decide))

/-! ### C3 -/

/-- C3: when the fetch attempt fails (exception or unparseable shape) and a
prior snapshot exists, `get_bitcoin_data` returns the prior snapshot's text
unchanged together with a non-empty staleness note. -/
theorem c3_stale_fallback_serves_prior (st : CacheState) (current_time : Nat)
    (fetch : FetchResult) (c : CachedData) (hc : st.cached_data = some c)
    (hmiss : CACHE_DURATION_SECONDS ≤ current_time - st.last_fetch_time)
    (hfail : fetch_fails fetch = true) :
    ∃ n, (get_bitcoin_data st current_time fetch).text = c.formatted_string ∧
      (get_bitcoin_data st current_time fetch).note = some n ∧ n ≠ "" := by
  have hn : ¬ current_time - st.last_fetch_time < CACHE_DURATION_SECONDS := by
    omega
  obtain ⟨n, hbr, hne⟩ := fetch_branch_stale st current_time fetch c hc hfail
  exact ⟨n, by simp [get_bitcoin_data, hc, hn, hbr],
    by simp [get_bitcoin_data, hc, hn, hbr], hne⟩

/-- Witness for C3: a timeout 300 seconds after caching serves the stale
text with the fetch-error note. -/
theorem c3_witness :
    ∃ n, (get_bitcoin_data ⟨some ⟨"OLD", ⟨none⟩⟩, 0⟩ 300 (.requestError "timeout")).text = "OLD" ∧
      (get_bitcoin_data ⟨some ⟨"OLD", ⟨none⟩⟩, 0⟩ 300 (.requestError "timeout")).note = some n ∧
      n ≠ "" :=
  c3_stale_fallback_serves_prior ⟨some ⟨"OLD", ⟨none⟩⟩, 0⟩ 300
    (.requestError "timeout") ⟨"OLD", ⟨none⟩⟩ rfl (by decide) (by decide)

/-! ### C5 -/

/-- C5: the cache globals are mutated only by a successful, parseable fetch,
which replaces both the snapshot and the timestamp together; on a cache hit
and on every failure path the previous state is left unchanged.  The second
conjunct says any state change is a full replacement: the new snapshot holds
exactly the returned text and the raw response, stamped with the call time. -/
theorem c5_cache_mutated_only_on_success (st : CacheState) (t : Nat)
    (f : FetchResult) :
    (fetch_fails f = true → (get_bitcoin_data st t f).st = st) ∧
    ((get_bitcoin_data st t f).st = st ∨
      ∃ d, f = .success d ∧ parse_ok d = true ∧
        (get_bitcoin_data st t f).st =
          ⟨some ⟨(get_bitcoin_data st t f).text, d⟩, t⟩) := by
  by_cases hhit : ∃ c, st.cached_data = some c ∧
      t - st.last_fetch_time < CACHE_DURATION_SECONDS
  · obtain ⟨c, hc, hfresh⟩ := hhit
    have : get_bitcoin_data st t f = ⟨c.formatted_string, none, st, 0⟩ := by
      simp [get_bitcoin_data, hc, hfresh]
    rw [this]
    exact ⟨fun _ => rfl, Or.inl rfl⟩
  · have hmiss : get_bitcoin_data st t f = fetch_branch st t f := by
      cases hc : st.cached_data with
      | none => simp [get_bitcoin_data, hc]
      | some c =>
        have : ¬ t - st.last_fetch_time < CACHE_DURATION_SECONDS :=
          fun hlt => hhit ⟨c, hc, hlt⟩
        simp [get_bitcoin_data, hc, this]
    rw [hmiss]
    refine ⟨fetch_branch_fail_state st t f, ?_⟩
    cases hff : fetch_fails f with
    | true => exact Or.inl (fetch_branch_fail_state st t f hff)
    | false =>
      cases f with
      | success d =>
        have hpo : parse_ok d = true := by
          simpa [fetch_fails] using hff
        cases hb : d.bitcoin with
        | none => rw [parse_ok, hb] at hpo; cases hpo
        | some b =>
          have hu : b.usdPresent = true := by simpa [parse_ok, hb] using hpo
          refine Or.inr ⟨d, rfl, hpo, ?_⟩
          rw [fetch_branch_success st t d b hb hu]
      | requestError e => simp [fetch_fails] at hff
      | unexpectedError e => simp [fetch_fails] at hff

/-- Witness for C5: a concrete failed fetch leaves the concrete prior state
untouched. -/
theorem c5_witness :
    (get_bitcoin_data ⟨some ⟨"KEPT", ⟨none⟩⟩, 0⟩ 400 (.requestError "down")).st =
      ⟨some ⟨"KEPT", ⟨none⟩⟩, 0⟩ :=
  (c5_cache_mutated_only_on_success ⟨some ⟨"KEPT", ⟨none⟩⟩, 0⟩ 400
    (.requestError "down")).1 (by decide)

/-! ### C6 -/

/-- C6 counterexample: with no prior snapshot, the unavailable placeholder is
NOT one single fixed string — the parse-failure, request-error and
unexpected-error branches return three pairwise different placeholder
texts. -/
theorem c6_counterexample :
    (get_bitcoin_data ⟨none, 0⟩ 10 (.success ⟨none⟩)).text ≠
      (get_bitcoin_data ⟨none, 0⟩ 10 (.requestError "boom")).text ∧
    (get_bitcoin_data ⟨none, 0⟩ 10 (.requestError "boom")).text ≠
      (get_bitcoin_data ⟨none, 0⟩ 10 (.unexpectedError "boom")).text ∧
    (get_bitcoin_data ⟨none, 0⟩ 10 (.success ⟨none⟩)).text ≠
      (get_bitcoin_data ⟨none, 0⟩ 10 (.unexpectedError "boom")).text := by
  decide

/-- C6 (amended): when the fetch fails and no prior snapshot exists, each
failure kind returns its own fixed unavailable-placeholder text (API
response format issue / API error / unexpected error) together with a
non-empty error note. -/
theorem c6_kind_specific_placeholder (st : CacheState) (t : Nat)
    (h : st.cached_data = none) :
    (∀ d : CGResponse, parse_ok d = false →
      (get_bitcoin_data st t (.success d)).text =
        "Could not fetch real-time data due to an API response format issue." ∧
      ∃ n, (get_bitcoin_data st t (.success d)).note = some n ∧ n ≠ "") ∧
    (∀ e, (get_bitcoin_data st t (.requestError e)).text =
        "Could not fetch real-time data due to an API error." ∧
      ∃ n, (get_bitcoin_data st t (.requestError e)).note = some n ∧ n ≠ "") ∧
    (∀ e, (get_bitcoin_data st t (.unexpectedError e)).text =
        "Could not fetch real-time data due to an unexpected error." ∧
      ∃ n, (get_bitcoin_data st t (.unexpectedError e)).note = some n ∧ n ≠ "") := by
  refine ⟨?_, ?_, ?_⟩
  · intro d hpo
    have hfail : fetch_fails (.success d) = true := by simp [fetch_fails, hpo]
    cases hb : d.bitcoin with
    | none =>
      refine ⟨by simp [get_bitcoin_data, h, fetch_branch, hb, parse_fail],
        "Could not parse Bitcoin data from CoinGecko API response.",
        by simp [get_bitcoin_data, h, fetch_branch, hb, parse_fail], by decide⟩
    | some b =>
      have hu : b.usdPresent = false := by simpa [parse_ok, hb] using hpo
      refine ⟨by simp [get_bitcoin_data, h, fetch_branch, hb, hu, parse_fail],
        "Could not parse Bitcoin data from CoinGecko API response.",
        by simp [get_bitcoin_data, h, fetch_branch, hb, hu, parse_fail], by decide⟩
  · intro e
    refine ⟨by simp [get_bitcoin_data, h, fetch_branch],
      "Request Error: " ++ e,
      by simp [get_bitcoin_data, h, fetch_branch],
      append_ne_empty_left "Request Error: " e (by decide)⟩
  · intro e
    refine ⟨by simp [get_bitcoin_data, h, fetch_branch],
      "Unexpected Error: " ++ e,
      by simp [get_bitcoin_data, h, fetch_branch],
      append_ne_empty_left "Unexpected Error: " e (by decide)⟩

/-- Witness for C6 (amended): a concrete request error with an empty cache. -/
theorem c6_witness :
    (get_bitcoin_data ⟨none, 0⟩ 5 (.requestError "boom")).text =
      "Could not fetch real-time data due to an API error." ∧
    ∃ n, (get_bitcoin_data ⟨none, 0⟩ 5 (.requestError "boom")).note = some n ∧
      n ≠ "" :=
  (c6_kind_specific_placeholder ⟨none, 0⟩ 5 rfl).2.1 "boom"

/-! ### C9 -/

/-- C9 counterexample: a fetch response whose `bitcoin` object carries none
of the three numeric fields (in particular the `usd` key itself is absent)
is NOT treated as a valid success: the call returns a non-`none` note, the
parse-failure placeholder text, and caches nothing (state and timestamp are
unchanged). -/
theorem c9_counterexample :
    (get_bitcoin_data ⟨none, 0⟩ 50
      (.success ⟨some ⟨false, none, none, none, none⟩⟩)).note ≠ none ∧
    (get_bitcoin_data ⟨none, 0⟩ 50
      (.success ⟨some ⟨false, none, none, none, none⟩⟩)).st = ⟨none, 0⟩ ∧
    (get_bitcoin_data ⟨none, 0⟩ 50
      (.success ⟨some ⟨false, none, none, none, none⟩⟩)).text =
      "Could not fetch real-time data due to an API response format issue." := by
  decide

/-- C9 (amended): a response is treated as a valid success only when the
`usd` key is present in the `bitcoin` object; if it is present but all three
numeric values are absent (JSON null / missing keys for the other two), the
fetch is still a success — the cache is replaced by a snapshot rendering all
three values as "N/A", the fetch timestamp is reset to the call time, and
the rendered text is returned with note `none`.  A response without the
`usd` key is instead handled as a parse failure. -/
theorem c9_null_fields_success (st : CacheState) (t : Nat) (b : BtcFields)
    (hmiss : st.cached_data = none ∨
      CACHE_DURATION_SECONDS ≤ t - st.last_fetch_time)
    (hu : b.usdPresent = true) (h1 : b.usd = none)
    (h2 : b.usd_market_cap = none) (h3 : b.usd_24h_vol = none) :
    get_bitcoin_data st t (.success ⟨some b⟩) =
      ⟨render_formatted b, none,
        ⟨some ⟨render_formatted b, ⟨some b⟩⟩, t⟩, 1⟩ ∧
    render_formatted b =
      "--- RECENT BITCOIN DATA ---\n" ++ "Current Price (USD): N/A\n" ++
      "Market Cap (USD): N/A\n" ++ "24h Volume (USD): N/A\n" ++
      ("Last Updated (UTC): " ++ last_updated_readable b.last_updated_at ++ "\n") ++
      "--------------------------\n\n" := by
  constructor
  · rw [get_bitcoin_data_miss st t _ hmiss]
    exact fetch_branch_success st t ⟨some b⟩ b rfl hu
  · simp [render_formatted, h1, h2, h3]

/-- Witness for C9 (amended): a concrete response with `usd` present but all
three numeric values null. -/
theorem c9_witness :
    get_bitcoin_data ⟨none, 0⟩ 7 (.success ⟨some ⟨true, none, none, none, none⟩⟩) =
      ⟨render_formatted ⟨true, none, none, none, none⟩, none,
        ⟨some ⟨render_formatted ⟨true, none, none, none, none⟩,
          ⟨some ⟨true, none, none, none, none⟩⟩⟩, 7⟩, 1⟩ ∧
    render_formatted ⟨true, none, none, none, none⟩ =
      "--- RECENT BITCOIN DATA ---\n" ++ "Current Price (USD): N/A\n" ++
      "Market Cap (USD): N/A\n" ++ "24h Volume (USD): N/A\n" ++
      ("Last Updated (UTC): " ++ last_updated_readable none ++ "\n") ++
      "--------------------------\n\n" :=
  c9_null_fields_success ⟨none, 0⟩ 7 ⟨true, none, none, none, none⟩
    (Or.inl rfl) rfl rfl rfl rfl

/-! ### C7 -/

/-- C7: a request whose `question` field is the empty string short-circuits
to the fixed "Please enter a question." answer with HTTP 200, without
calling `get_bitcoin_data` (hence no price fetch) and without contacting
the Gemini collaborator. -/
theorem c7_empty_question_short_circuit (st : CacheState) (t : Nat)
    (f : FetchResult) (llm : Except String GeminiResponse)
    (hist : List ChatMsg) :
    ask_bitcoin_api true (some ⟨some "", some hist⟩) st t f llm =
      ⟨200, .answer "Please enter a question.", st, 0, 0, 0, none⟩ := by
  simp [ask_bitcoin_api]

/-! ### C8 -/

/-- C8: every exception raised by the Gemini collaborator is caught and
turned into the apology string, which (possibly with a related-resources
suffix) is returned as the answer of an HTTP 200 response — the exception
never surfaces as an HTTP-level failure. -/
theorem c8_llm_exception_caught (st : CacheState) (t : Nat) (f : FetchResult)
    (q : String) (hist : List ChatMsg) (e : String) (hq : q ≠ "") :
    (ask_bitcoin_api true (some ⟨some q, some hist⟩) st t f (.error e)).status = 200 ∧
    ∃ s, (ask_bitcoin_api true (some ⟨some q, some hist⟩) st t f (.error e)).body =
      .answer ("An internal error occurred while contacting the AI: " ++ e ++ s) := by
  constructor
  · simp [ask_bitcoin_api, hq]
  · by_cases hl : (find_relevant_links
        ("An internal error occurred while contacting the AI: " ++ e)
        RESOURCE_LINKS).isEmpty
    · exact ⟨"", by simp [ask_bitcoin_api, hq, hl]⟩
    · exact ⟨links_section (sort_links (find_relevant_links
          ("An internal error occurred while contacting the AI: " ++ e)
          RESOURCE_LINKS)),
        by simp [ask_bitcoin_api, hq, hl]⟩

/-- Witness for C8: a concrete Gemini exception still yields a 200 answer
derived from the apology string. -/
theorem c8_witness :
    (ask_bitcoin_api true (some ⟨some "hi", some []⟩) ⟨none, 0⟩ 0
      (.requestError "x") (.error "boom")).status = 200 ∧
    ∃ s, (ask_bitcoin_api true (some ⟨some "hi", some []⟩) ⟨none, 0⟩ 0
      (.requestError "x") (.error "boom")).body =
      .answer ("An internal error occurred while contacting the AI: " ++ "boom" ++ s) :=
  c8_llm_exception_caught ⟨none, 0⟩ 0 (.requestError "x") "hi" [] "boom" (by decide)

/-! ### C10 -/

/-- C10: the empty-question guard tests truthiness of the raw string, so any
non-empty question — in particular one made only of whitespace — proceeds to
call both the quote cache and the Gemini collaborator. -/
theorem c10_whitespace_question_proceeds (st : CacheState) (t : Nat)
    (f : FetchResult) (llm : Except String GeminiResponse)
    (hist : List ChatMsg) (q : String) (hq : q ≠ "") :
    (ask_bitcoin_api true (some ⟨some q, some hist⟩) st t f llm).get_data_calls = 1 ∧
    (ask_bitcoin_api true (some ⟨some q, some hist⟩) st t f llm).llm_calls = 1 := by
  cases llm <;> simp [ask_bitcoin_api, hq]

/-- Witness for C10: the single-space question " " is processed like any
other question. -/
theorem c10_witness :
    (ask_bitcoin_api true (some ⟨some " ", some []⟩) ⟨none, 0⟩ 0
      (.requestError "x") (.ok ⟨["ok"], none, []⟩)).get_data_calls = 1 ∧
    (ask_bitcoin_api true (some ⟨some " ", some []⟩) ⟨none, 0⟩ 0
      (.requestError "x") (.ok ⟨["ok"], none, []⟩)).llm_calls = 1 :=
  c10_whitespace_question_proceeds ⟨none, 0⟩ 0 (.requestError "x")
    (.ok ⟨["ok"], none, []⟩) [] " " (by decide)

/-! ### C4 -/

/-- Fixture for the C4 counterexample: the successful fetch whose rendered
snapshot becomes the cached prior data. -/
def c4_prior_fetch : FetchResult :=
  .success ⟨some ⟨true, some ⟨100, 1⟩, some ⟨2000, 1⟩, some ⟨300, 1⟩, none⟩⟩

/-- Fixture for the C4 counterexample: the cache state after the successful
fetch at time 100. -/
def c4_cached_state : CacheState := (get_bitcoin_data ⟨none, 0⟩ 100 c4_prior_fetch).st

/-- Fixture for the C4 counterexample: the prompt the handler actually sends
on the stale-fallback request. -/
def c4_actual_prompt : String :=
  "--- RECENT BITCOIN DATA ---\nData Fetch Status: ERROR - Using stale data due to fetch error.\n--------------------------\n\nUser Question: hi\n\nAnswer:"

set_option maxRecDepth 100000 in
/-- C4 counterexample: at time 401 (snapshot age 301, expired) the fetch
fails and `get_bitcoin_data` returns the prior rendered snapshot with a
staleness note — yet the outbound prompt is the error-marker block and does
NOT contain the stale numeric data block anywhere. -/
theorem c4_counterexample :
    (get_bitcoin_data c4_cached_state 401 (.requestError "boom")).note =
      some "Using stale data due to fetch error." ∧
    (get_bitcoin_data c4_cached_state 401 (.requestError "boom")).text =
      (get_bitcoin_data ⟨none, 0⟩ 100 c4_prior_fetch).text ∧
    (ask_bitcoin_api true (some ⟨some "hi", some []⟩) c4_cached_state 401
      (.requestError "boom") (.ok ⟨["ok"], none, []⟩)).prompt =
      some c4_actual_prompt ∧
    substr_occurs (get_bitcoin_data c4_cached_state 401 (.requestError "boom")).text
      c4_actual_prompt = false := by
  decide

/-- C4 (amended): whenever `get_bitcoin_data` returns a non-empty note —
which it does on every stale-fallback result — the prompt assembler embeds
the "Data Fetch Status: ERROR - <note>" marker in place of the numeric
fields; the numeric data block is embedded only when the note is `None`. -/
theorem c4_error_marker_replaces_block (st : CacheState) (t : Nat)
    (f : FetchResult) (q : String) (hist : List ChatMsg)
    (llm : Except String GeminiResponse) (hq : q ≠ "") :
    (∀ err, (get_bitcoin_data st t f).note = some err → err ≠ "" →
      (ask_bitcoin_api true (some ⟨some q, some hist⟩) st t f llm).prompt =
        some ("--- RECENT BITCOIN DATA ---\n" ++
          ("Data Fetch Status: ERROR - " ++ err ++ "\n") ++
          "--------------------------\n\n" ++ "User Question: " ++ q ++
          "\n\nAnswer:")) ∧
    ((get_bitcoin_data st t f).note = none →
      (ask_bitcoin_api true (some ⟨some q, some hist⟩) st t f llm).prompt =
        some ("--- RECENT BITCOIN DATA ---\n" ++
          ((get_bitcoin_data st t f).text.replace "--- RECENT BITCOIN DATA ---\n" "") ++
          "--------------------------\n\n" ++ "User Question: " ++ q ++
          "\n\nAnswer:")) := by
  constructor
  · intro err hnote hne
    cases llm <;> simp [ask_bitcoin_api, hq, hnote, hne]
  · intro hnote
    cases llm <;> simp [ask_bitcoin_api, hq, hnote]

/-- Witness for C4 (amended): a concrete stale-fallback request whose prompt
carries the error marker built from the staleness note. -/
theorem c4_witness :
    (ask_bitcoin_api true (some ⟨some "hi", some []⟩)
      ⟨some ⟨"OLDBLOCK", ⟨none⟩⟩, 0⟩ 300 (.requestError "x")
      (.ok ⟨["ok"], none, []⟩)).prompt =
      some ("--- RECENT BITCOIN DATA ---\n" ++
        ("Data Fetch Status: ERROR - " ++ "Using stale data due to fetch error." ++ "\n") ++
        "--------------------------\n\n" ++ "User Question: " ++ "hi" ++
        "\n\nAnswer:") :=
  (c4_error_marker_replaces_block ⟨some ⟨"OLDBLOCK", ⟨none⟩⟩, 0⟩ 300
    (.requestError "x") "hi" [] (.ok ⟨["ok"], none, []⟩) (by decide)).1
    "Using stale data due to fetch error." (by decide) (by decide)

end BitcoinChatbot
